import Mathlib

/-!
Shallow embedding of `salt/modules/chefapi.py` (the `chef` execution module of
the Salt distribution), with theorems checking the module's natural-language
specification against the code.

Modelling conventions:
* Python values whose dynamic type matters to the module (the identity checks
  `force is False` and `dry_run is None`, the `isinstance(run_list, list)`
  check) are embedded as `PyVal`.
* The ambient capabilities the module consumes — `__salt__['cmd.which']`,
  `__salt__['config.option']`, `__salt__['cmd.run']`, `os.path.isfile`, and
  the optional `chef` REST-client library — are a record `Env` of pure
  functions, one per capability.
* A raised Python exception is the `Except.error` side of a result; `PyExc`
  records the exception class.
* Two slips of the source are embedded exactly as written:
  the `except ImportError: pass` branch never assigns `HAS_CHEF`, so reading
  that name in `_get_api` raises `NameError` when the library is missing; and
  the module never imports `tempfile`, so `tempfile.TemporaryFile()` inside
  `run` raises `NameError` before any temporary file is created.
* Python's `out.split(sep)` for a one-character separator is embedded as
  `pySplitChar`, which keeps empty fragments and yields one fragment for the
  empty string, exactly like Python's `str.split` with an explicit separator.
-/

namespace Chefapi

/-- Decidable equality for `Except`, so that concrete runs can be settled by
`decide`. -/
instance {ε α : Type} [DecidableEq ε] [DecidableEq α] : DecidableEq (Except ε α) := fun x y =>
  match x, y with
  | Except.ok a, Except.ok b =>
      if h : a = b then isTrue (by rw [h]) else isFalse (fun hh => h (Except.ok.injEq a b ▸ hh))
  | Except.error e, Except.error f =>
      if h : e = f then isTrue (by rw [h]) else isFalse (fun hh => h (Except.error.injEq e f ▸ hh))
  | Except.ok _, Except.error _ => isFalse (fun hh => Except.noConfusion hh)
  | Except.error _, Except.ok _ => isFalse (fun hh => Except.noConfusion hh)

/-- Python-level values relevant to the claims about this module. -/
inductive PyVal where
  | none
  | bool (b : Bool)
  | int (n : Int)
  | str (s : String)
  | list (xs : List String)
deriving DecidableEq, Repr

/-- Python exception classes the module can raise. -/
inductive PyExc where
  | nameError (missing : String)
  | attributeError (attr : String)
  | runtimeError (msg : String)
deriving DecidableEq, Repr

/-- Parsed JSON returned by the chef server: a JSON object (we only ever need
its keys) or any non-object value. -/
inductive PyJson where
  | dict (keys : List String)
  | nonDict (tag : String)
deriving DecidableEq, Repr

/-- Value produced by `_call_api`: the literal Python `False` (dead code in the
source, kept for faithfulness) or parsed JSON from `api_request`. -/
inductive ApiVal where
  | pyFalse
  | json (j : PyJson)
deriving DecidableEq, Repr

/-- Ambient capabilities of the module: `__salt__['cmd.which']`,
`__salt__['config.option']` (an unset option resolves to `Option.none`),
`os.path.isfile`, `__salt__['cmd.run']` (`Except.error` = the call raised),
whether `import chef` succeeded, and the REST client's `api_request`. -/
structure Env where
  hasChefImport : Bool
  configOption : String → Option String
  which : String → Option String
  isfile : String → Bool
  cmdRun : String → Except String String
  apiRequest : String → String → PyJson

/-- Python `str.split(sep)` with a one-character separator: auxiliary loop,
carrying the reversed current fragment. -/
def splitCharAux (sep : Char) : List Char → List Char → List String
  | [], acc => [String.mk acc.reverse]
  | c :: cs, acc =>
      if c = sep then String.mk acc.reverse :: splitCharAux sep cs []
      else splitCharAux sep cs (c :: acc)

/-- Python `s.split(sep)` for a one-character separator `sep`: keeps empty
fragments, and the empty string yields one empty fragment. -/
def pySplitChar (sep : Char) (s : String) : List String :=
  splitCharAux sep s.data []

/-- Auxiliary loop splitting at every whitespace character. -/
def splitWsAux : List Char → List Char → List String
  | [], acc => [String.mk acc.reverse]
  | c :: cs, acc =>
      if c.isWhitespace then String.mk acc.reverse :: splitWsAux cs []
      else splitWsAux cs (c :: acc)

/-- Follows the claim's wording, not the source: the last whitespace-delimited
token of a string, i.e. the last element of Python `s.split()` with no
argument (split on runs of arbitrary whitespace, empty fragments dropped).
Used to compare the specified behavior of `version` with the embedded one. -/
def lastWhitespaceToken (s : String) : String :=
  ((splitWsAux s.data []).filter (fun t => !t.isEmpty)).getLastD ""

/-- `__salt__['config.option'](name, default)`: the configured value, or the
default when the option is unset. -/
def config_option (env : Env) (name dflt : String) : String :=
  (env.configOption name).getD dflt

/-- The two fallback locations probed by `_get_chef_client`, in source order. -/
def chefClientFallbacks : List String :=
  ["/opt/chef/bin/chef-client", "/opt/opscode/bin/chef-client"]

/-- The `for bin in [...]` loop of `_get_chef_client`: first path that
`os.path.isfile` accepts. -/
def firstExistingFile (env : Env) : List String → Option String
  | [] => Option.none
  | b :: bs => if env.isfile b then Option.some b else firstExistingFile env bs

/-- `_get_chef_client()`: `cmd.which('chef-client')`, falling back to the two
fixed absolute paths; `Option.none` models the Python `None` result. -/
def _get_chef_client (env : Env) : Option String :=
  match env.which "chef-client" with
  | Option.some c => Option.some c
  | Option.none => firstExistingFile env chefClientFallbacks

/-- Reading the module-level name `HAS_CHEF`: it is assigned (to `True`) only
when `import chef` succeeded; the `except ImportError` handler is `pass`, so
when the import failed the name does not exist and reading it raises
`NameError`. -/
def readHasChefFlag (env : Env) : Except PyExc Bool :=
  if env.hasChefImport then Except.ok true else Except.error (PyExc.nameError "HAS_CHEF")

/-- The constructed `chef.ChefAPI(url, key, user)` client. -/
structure ChefAPI where
  url : String
  key : Option String
  user : Option String
deriving DecidableEq, Repr

/-- `_get_api()`: reads `HAS_CHEF`, and if it is truthy builds the client from
the resolved options; the implicit `return None` fall-through of the Python
function is the `Except.ok Option.none` branch (unreachable, kept for
faithfulness). -/
def _get_api (env : Env) : Except PyExc (Option ChefAPI) :=
  match readHasChefFlag env with
  | Except.error e => Except.error e
  | Except.ok hasChef =>
      if hasChef then
        Except.ok (Option.some
          ⟨"http://" ++ config_option env "chef.api.host" "localhost" ++ ":"
              ++ config_option env "chef.api.port" "4000",
           env.configOption "chef.api.key", env.configOption "chef.api.user"⟩)
      else
        Except.ok Option.none

/-- Log of requests issued to the REST client: (method, endpoint) pairs. -/
abbrev ReqLog := List (String × String)

/-- `_call_api(method, endpoint)`: `False` when `_get_api` yielded no client,
otherwise the client's `api_request`; also returns the issued requests. -/
def _call_api (env : Env) (method endpoint : String) : Except PyExc ApiVal × ReqLog :=
  match _get_api env with
  | Except.error e => (Except.error e, [])
  | Except.ok Option.none => (Except.ok ApiVal.pyFalse, [])
  | Except.ok (Option.some _) =>
      (Except.ok (ApiVal.json (env.apiRequest method endpoint)), [(method, endpoint)])

/-- Python `x.keys()`: defined on a JSON object; raises `AttributeError` on
`False` (a `bool`) and on non-object JSON values. -/
def pyKeys : ApiVal → Except PyExc (List String)
  | ApiVal.json (PyJson.dict ks) => Except.ok ks
  | _ => Except.error (PyExc.attributeError "keys")

/-- `_call_api('GET', endpoint).keys()`, the body shared by the four list
operations. -/
def callKeys (env : Env) (endpoint : String) : Except PyExc (List String) × ReqLog :=
  match _call_api env "GET" endpoint with
  | (Except.error e, log) => (Except.error e, log)
  | (Except.ok v, log) => (pyKeys v, log)

/-- `list_nodes()`. -/
def list_nodes (env : Env) : Except PyExc (List String) × ReqLog :=
  callKeys env "/nodes"

/-- `list_roles()`. -/
def list_roles (env : Env) : Except PyExc (List String) × ReqLog :=
  callKeys env "/roles"

/-- `list_clients()`. -/
def list_clients (env : Env) : Except PyExc (List String) × ReqLog :=
  callKeys env "/clients"

/-- `list_data()`. -/
def list_data (env : Env) : Except PyExc (List String) × ReqLog :=
  callKeys env "/data"

/-- The endpoint string built by `search`: the formatted base
`'/search/%s?q=%s&start=%d'`, then the `'&rows=%d'` chunk when a limit was
supplied, then the `'&sort=%s'` chunk when a sort was supplied. -/
def search_endpoint (index query : String) (start : Int)
    (limit : Option Int) (sort : Option String) : String :=
  let endpoint := "/search/" ++ index ++ "?q=" ++ query ++ "&start=" ++ toString start
  let endpoint :=
    match limit with
    | Option.some l => endpoint ++ ("&rows=" ++ toString l)
    | Option.none => endpoint
  match sort with
  | Option.some s => endpoint ++ ("&sort=" ++ s)
  | Option.none => endpoint

/-- `search(index, query, start=0, limit=None, sort=None)`. -/
def search (env : Env) (index query : String) (start : Int)
    (limit : Option Int) (sort : Option String) : Except PyExc ApiVal × ReqLog :=
  _call_api env "GET" (search_endpoint index query start limit sort)

/-- `node(name)`. -/
def node (env : Env) (name : String) : Except PyExc ApiVal × ReqLog :=
  _call_api env "GET" ("/nodes/" ++ name)

/-- `role(name)`. -/
def role (env : Env) (name : String) : Except PyExc ApiVal × ReqLog :=
  _call_api env "GET" ("/roles/" ++ name)

/-- `client(name)`. -/
def client (env : Env) (name : String) : Except PyExc ApiVal × ReqLog :=
  _call_api env "GET" ("/clients/" ++ name)

/-- `data(name, item=None)`. -/
def data (env : Env) (name : String) (item : Option String) : Except PyExc ApiVal × ReqLog :=
  match item with
  | Option.none => _call_api env "GET" ("/data/" ++ name)
  | Option.some it => _call_api env "GET" ("/data/" ++ name ++ "/" ++ it)

/-- `delete_node(name)`. -/
def delete_node (env : Env) (name : String) : Except PyExc ApiVal × ReqLog :=
  _call_api env "DELETE" ("/nodes/" ++ name)

/-- `delete_role(name)`. -/
def delete_role (env : Env) (name : String) : Except PyExc ApiVal × ReqLog :=
  _call_api env "DELETE" ("/roles/" ++ name)

/-- `delete_client(name)`. -/
def delete_client (env : Env) (name : String) : Except PyExc ApiVal × ReqLog :=
  _call_api env "DELETE" ("/clients/" ++ name)

/-- `version()`: the literal not-found string when the executable is absent;
otherwise `cmd.run(cmd + ' -v').split(' ')[-1]`, with any raised exception
caught and converted to the Python `False`. -/
def version (env : Env) : PyVal :=
  match _get_chef_client env with
  | Option.none => PyVal.str "Unable to locate chef-client executable."
  | Option.some cmd =>
      match env.cmdRun (cmd ++ " -v") with
      | Except.ok out => PyVal.str ((pySplitChar ' ' out).getLastD "")
      | Except.error _ => PyVal.bool false

/-- The keyword arguments of `run`, in source order.  `force`, `run_list` and
`dry_run` are kept as dynamic `PyVal`s because the source inspects their type
or identity; the remaining options are only formatted into the command. -/
structure RunArgs where
  force : PyVal
  run_list : PyVal
  key_file : Option String
  validation_key : Option String
  server : Option String
  environment : Option String
  log_level : Option String
  node_name : Option String
  dry_run : PyVal
deriving DecidableEq, Repr

/-- Python `x is False`: true exactly for the Boolean `False` object; other
falsy values such as `0` or `None` are different objects. -/
def pyIsFalse : PyVal → Bool
  | PyVal.bool false => true
  | _ => false

/-- Python `x is None`. -/
def pyIsNone : PyVal → Bool
  | PyVal.none => true
  | _ => false

/-- The skip-file check of `run`: performed only under `if force is False:`;
yields the resolved skip-file path when that file exists (the abort case). -/
def skipCheck (env : Env) (force : PyVal) : Option String :=
  if pyIsFalse force then
    let skipfile := config_option env "chef.client.skipfile" "/etc/chef/no_chef_run"
    if env.isfile skipfile then Option.some skipfile else Option.none
  else Option.none

/-- The sequential `cmd += ...` flag accumulation of `run`, after the
run-list handling: `key_file` and `validation_key` are appended only when the
path exists, `server`, `environment`, `log_level` and `node_name` whenever
supplied, and the why-run flag under `if not dry_run is None:`. -/
def buildFlags (env : Env) (a : RunArgs) (cmd : String) : String :=
  let cmd :=
    match a.key_file with
    | Option.some kf => if env.isfile kf then cmd ++ (" --client_key " ++ kf) else cmd
    | Option.none => cmd
  let cmd :=
    match a.validation_key with
    | Option.some vk => if env.isfile vk then cmd ++ (" --validation_key " ++ vk) else cmd
    | Option.none => cmd
  let cmd :=
    match a.server with
    | Option.some sv => cmd ++ (" --server " ++ sv)
    | Option.none => cmd
  let cmd :=
    match a.environment with
    | Option.some ev => cmd ++ (" --environment " ++ ev)
    | Option.none => cmd
  let cmd :=
    match a.log_level with
    | Option.some lv => cmd ++ (" --log_level " ++ lv)
    | Option.none => cmd
  let cmd :=
    match a.node_name with
    | Option.some nn => cmd ++ (" --node-name " ++ nn)
    | Option.none => cmd
  if pyIsNone a.dry_run then cmd else cmd ++ " --why-run"

/-- Observable side effects of one `run` invocation: the command lines passed
to `cmd.run`, and how many temporary files were created. -/
structure Trace where
  executed : List String
  tmpCreated : Nat
deriving DecidableEq, Repr

/-- Value returned by `run`: an abort/not-found message string, or the lines
of the captured output. -/
inductive RunResult where
  | msg (s : String)
  | lines (ls : List String)
deriving DecidableEq, Repr

/-- `run(...)`.  When `run_list` is a list the source executes
`tempfile.TemporaryFile()`, but the module never imports `tempfile`, so that
statement raises `NameError` before any file is created or any flag is
appended; consequently `tmpjson` is still `None` when the final
`if not tmpjson is None: tmpjson.close()` would execute, and that close is a
no-op on every reachable path. -/
def run (env : Env) (a : RunArgs) : Except PyExc RunResult × Trace :=
  match _get_chef_client env with
  | Option.none =>
      (Except.ok (RunResult.msg "Unable to locate chef-client executable."), ⟨[], 0⟩)
  | Option.some cmd =>
      match skipCheck env a.force with
      | Option.some skipfile =>
          (Except.ok (RunResult.msg ("Skipfile is present at " ++ skipfile ++ ", skipping")),
           ⟨[], 0⟩)
      | Option.none =>
          match a.run_list with
          | PyVal.list _ => (Except.error (PyExc.nameError "tempfile"), ⟨[], 0⟩)
          | _ =>
              let cmd := buildFlags env a cmd
              match env.cmdRun cmd with
              | Except.error e => (Except.error (PyExc.runtimeError e), ⟨[cmd], 0⟩)
              | Except.ok out => (Except.ok (RunResult.lines (pySplitChar '\n' out)), ⟨[cmd], 0⟩)

/-- Context in which `import chef` failed and nothing else is available. -/
def envNoChefLib : Env :=
  ⟨false, fun _ => Option.none, fun _ => Option.none, fun _ => false,
   fun _ => Except.ok "", fun _ _ => PyJson.dict []⟩

/-- Context with the executable on the path, no skip-file, and `cmd.run`
returning a plain version line. -/
def envLocated : Env :=
  ⟨true, fun _ => Option.none, fun _ => Option.some "/usr/bin/chef-client",
   fun _ => false, fun _ => Except.ok "Chef: 11.4.0", fun _ _ => PyJson.dict []⟩

/-- Context with the executable on the path and every path test succeeding, so
the default skip-file exists. -/
def envSkipfilePresent : Env :=
  ⟨true, fun _ => Option.none, fun _ => Option.some "/usr/bin/chef-client",
   fun _ => true, fun _ => Except.ok "Chef: 11.4.0", fun _ _ => PyJson.dict []⟩

/-- Context whose `cmd.run` output contains a tab between the tokens. -/
def envTabOutput : Env :=
  ⟨true, fun _ => Option.none, fun _ => Option.some "/usr/bin/chef-client",
   fun _ => false, fun _ => Except.ok "Chef:\t11.4.0", fun _ _ => PyJson.dict []⟩

/-- Context whose `cmd.run` raises. -/
def envCmdFails : Env :=
  ⟨true, fun _ => Option.none, fun _ => Option.some "/usr/bin/chef-client",
   fun _ => false, fun _ => Except.error "boom", fun _ _ => PyJson.dict []⟩

/-- Context with no executable anywhere. -/
def envNoExecutable : Env :=
  ⟨true, fun _ => Option.none, fun _ => Option.none, fun _ => false,
   fun _ => Except.ok "", fun _ _ => PyJson.dict []⟩

/-- Context where the path lookup fails and only the second fallback location
exists as a file. -/
def envOnlyOpscode : Env :=
  ⟨true, fun _ => Option.none, fun _ => Option.none,
   fun p => p == "/opt/opscode/bin/chef-client",
   fun _ => Except.ok "", fun _ _ => PyJson.dict []⟩

/-- Every `run` invocation leaves the temporary-file counter at zero: the only
branch that would create one raises `NameError` first. -/
theorem run_never_creates_tmpfile (env : Env) (a : RunArgs) :
    (run env a).2.tmpCreated = 0 := by
  cases h1 : _get_chef_client env <;> simp [run, h1]
  cases h2 : skipCheck env a.force <;> simp
  cases h3 : a.run_list <;> simp
  all_goals cases h4 : env.cmdRun (buildFlags env a _) <;> simp [h4]

/-- Claim C1 (code-bug evidence): when the chef library is unavailable, every
API Facade operation raises `NameError` instead of returning the Boolean
`false` — the `except ImportError` branch never assigns `HAS_CHEF`, so
`_get_api` dies reading that name before its `return False` path could ever
matter (and even with `HAS_CHEF = False` the four list operations would raise
`AttributeError` calling `.keys()` on `False`). -/
theorem claim_C1 (env : Env) (name item index query : String)
    (h : env.hasChefImport = false) :
    (list_nodes env).1 = Except.error (PyExc.nameError "HAS_CHEF") ∧
    (list_roles env).1 = Except.error (PyExc.nameError "HAS_CHEF") ∧
    (list_clients env).1 = Except.error (PyExc.nameError "HAS_CHEF") ∧
    (list_data env).1 = Except.error (PyExc.nameError "HAS_CHEF") ∧
    (search env index query 0 Option.none Option.none).1
        = Except.error (PyExc.nameError "HAS_CHEF") ∧
    (node env name).1 = Except.error (PyExc.nameError "HAS_CHEF") ∧
    (role env name).1 = Except.error (PyExc.nameError "HAS_CHEF") ∧
    (client env name).1 = Except.error (PyExc.nameError "HAS_CHEF") ∧
    (data env name Option.none).1 = Except.error (PyExc.nameError "HAS_CHEF") ∧
    (data env name (Option.some item)).1 = Except.error (PyExc.nameError "HAS_CHEF") ∧
    (delete_node env name).1 = Except.error (PyExc.nameError "HAS_CHEF") ∧
    (delete_role env name).1 = Except.error (PyExc.nameError "HAS_CHEF") ∧
    (delete_client env name).1 = Except.error (PyExc.nameError "HAS_CHEF") := by
  refine ⟨?_, ?_, ?_, ?_, ?_, ?_, ?_, ?_, ?_, ?_, ?_, ?_, ?_⟩ <;>
    simp [list_nodes, list_roles, list_clients, list_data, search, node, role, client,
      data, delete_node, delete_role, delete_client, callKeys, _call_api, _get_api,
      readHasChefFlag, h]

/-- Claim C1, witness: in a concrete context without the chef library,
`list_nodes` raises `NameError` for the undefined `HAS_CHEF`. -/
theorem claim_C1_witness :
    envNoChefLib.hasChefImport = false ∧
    (list_nodes envNoChefLib).1 = Except.error (PyExc.nameError "HAS_CHEF") :=
  ⟨rfl, (claim_C1 envNoChefLib "n1" "it1" "idx" "q1" rfl).1⟩

/-- Claim C2 (code-bug evidence): with the executable located and the
skip-file check passed, `run` with run_list = ["role[global]"] raises
`NameError` at `tempfile.TemporaryFile()` — the module never imports
`tempfile` — so no temporary file is created, no command is executed, and no
file content ever exists (note also that, were the import present, the code
would write the comma-join of the raw elements, not JSON-quoted strings). -/
theorem claim_C2 :
    run envLocated
      ⟨PyVal.bool false, PyVal.list ["role[global]"], Option.none, Option.none,
       Option.none, Option.none, Option.none, Option.none, PyVal.none⟩
      = (Except.error (PyExc.nameError "tempfile"), ⟨[], 0⟩) := by decide

/-- Claim C3 (code-bug evidence): the claimed scenario — an invocation of
`run` in which a temporary run-list file was created — is unreachable: on the
only path that would create one (`run_list` a list, executable found,
skip-file check passed) the code raises `NameError` first, creating nothing,
and every `run` invocation whatsoever creates zero temporary files. -/
theorem claim_C3 (env : Env) (c : String) (xs : List String)
    (kf vk sv ev lv nn : Option String) (dr : PyVal)
    (h : _get_chef_client env = Option.some c) :
    run env ⟨PyVal.bool true, PyVal.list xs, kf, vk, sv, ev, lv, nn, dr⟩
        = (Except.error (PyExc.nameError "tempfile"), ⟨[], 0⟩) ∧
    ∀ a : RunArgs, (run env a).2.tmpCreated = 0 := by
  constructor
  · simp [run, h, skipCheck, pyIsFalse]
  · intro a; exact run_never_creates_tmpfile env a

/-- Claim C3, witness: concrete instance of the `NameError` raise and of the
zero-temporary-files invariant. -/
theorem claim_C3_witness :
    _get_chef_client envLocated = Option.some "/usr/bin/chef-client" ∧
    run envLocated
      ⟨PyVal.bool true, PyVal.list ["recipe[a]"], Option.none, Option.none,
       Option.none, Option.none, Option.none, Option.none, PyVal.none⟩
      = (Except.error (PyExc.nameError "tempfile"), ⟨[], 0⟩) :=
  ⟨by decide,
   (claim_C3 envLocated "/usr/bin/chef-client" ["recipe[a]"] Option.none Option.none
     Option.none Option.none Option.none Option.none PyVal.none (by decide)).1⟩

/-- Claim C4: `search(index, query)` with no start/limit/sort builds exactly
the endpoint `/search/index?q=query&start=0` (no trailing rows or sort
fragment) and issues a single GET to it; when limit or sort are supplied, the
fragments appear in the fixed order q, start, rows (only if a limit was
supplied), sort (only if a sort was supplied). -/
theorem claim_C4 (env : Env) (index query : String) (start limit : Int) (sort : String) :
    search_endpoint index query 0 Option.none Option.none
        = "/search/" ++ index ++ "?q=" ++ query ++ "&start=0" ∧
    search_endpoint index query start (Option.some limit) (Option.some sort)
        = "/search/" ++ index ++ "?q=" ++ query ++ "&start=" ++ toString start
            ++ "&rows=" ++ toString limit ++ "&sort=" ++ sort ∧
    search_endpoint index query start (Option.some limit) Option.none
        = "/search/" ++ index ++ "?q=" ++ query ++ "&start=" ++ toString start
            ++ "&rows=" ++ toString limit ∧
    search_endpoint index query start Option.none (Option.some sort)
        = "/search/" ++ index ++ "?q=" ++ query ++ "&start=" ++ toString start
            ++ "&sort=" ++ sort ∧
    (env.hasChefImport = true →
      (search env index query 0 Option.none Option.none).2
          = [("GET", "/search/" ++ index ++ "?q=" ++ query ++ "&start=0")]) := by
  refine ⟨?_, ?_, ?_, ?_, fun h => ?_⟩
  · simp only [search_endpoint, String.append_assoc]; rfl
  · simp only [search_endpoint, String.append_assoc]
  · simp only [search_endpoint, String.append_assoc]
  · simp only [search_endpoint, String.append_assoc]
  · have e1 : search_endpoint index query 0 Option.none Option.none
        = "/search/" ++ index ++ "?q=" ++ query ++ "&start=0" := by
      simp only [search_endpoint, String.append_assoc]; rfl
    simp [search, _call_api, _get_api, readHasChefFlag, h, e1]

/-- Claim C4, witness: in a context where the client exists, `search` issues
exactly one GET to the bare endpoint. -/
theorem claim_C4_witness :
    envLocated.hasChefImport = true ∧
    (search envLocated "test" "key:v" 0 Option.none Option.none).2
        = [("GET", "/search/" ++ "test" ++ "?q=" ++ "key:v" ++ "&start=0")] :=
  ⟨rfl, (claim_C4 envLocated "test" "key:v" 0 0 "").2.2.2.2 rfl⟩

/-- Claim C5: with the executable located, `force=False` and the resolved
skip-file present, `run` returns the message naming that exact path and
executes nothing. -/
theorem claim_C5 (env : Env) (c : String) (rl : PyVal)
    (kf vk sv ev lv nn : Option String) (dr : PyVal)
    (h1 : _get_chef_client env = Option.some c)
    (h2 : env.isfile (config_option env "chef.client.skipfile" "/etc/chef/no_chef_run") = true) :
    run env ⟨PyVal.bool false, rl, kf, vk, sv, ev, lv, nn, dr⟩
        = (Except.ok (RunResult.msg ("Skipfile is present at "
            ++ config_option env "chef.client.skipfile" "/etc/chef/no_chef_run"
            ++ ", skipping")), ⟨[], 0⟩) ∧
    (run env ⟨PyVal.bool false, rl, kf, vk, sv, ev, lv, nn, dr⟩).2.executed = [] := by
  have hrun : run env ⟨PyVal.bool false, rl, kf, vk, sv, ev, lv, nn, dr⟩
      = (Except.ok (RunResult.msg ("Skipfile is present at "
          ++ config_option env "chef.client.skipfile" "/etc/chef/no_chef_run"
          ++ ", skipping")), ⟨[], 0⟩) := by
    simp [run, h1, skipCheck, pyIsFalse, h2]
  exact ⟨hrun, by rw [hrun]⟩

/-- Claim C5, witness: concrete context where the default skip-file exists;
`run(force=False)` aborts with the message naming `/etc/chef/no_chef_run` and
the executed-command log is empty. -/
theorem claim_C5_witness :
    _get_chef_client envSkipfilePresent = Option.some "/usr/bin/chef-client" ∧
    envSkipfilePresent.isfile
      (config_option envSkipfilePresent "chef.client.skipfile" "/etc/chef/no_chef_run") = true ∧
    run envSkipfilePresent
      ⟨PyVal.bool false, PyVal.none, Option.none, Option.none, Option.none,
       Option.none, Option.none, Option.none, PyVal.none⟩
      = (Except.ok (RunResult.msg "Skipfile is present at /etc/chef/no_chef_run, skipping"),
         ⟨[], 0⟩) := by
  refine ⟨by decide, rfl, ?_⟩
  exact (claim_C5 envSkipfilePresent "/usr/bin/chef-client" PyVal.none Option.none
    Option.none Option.none Option.none Option.none Option.none PyVal.none
    (by decide) rfl).1

/-- Claim C6: executable discovery returns the path-lookup result when that
lookup succeeds; otherwise it probes `/opt/chef/bin/chef-client` then
`/opt/opscode/bin/chef-client` in that order and returns the first existing
file, or no path at all when none exists. -/
theorem claim_C6 (env : Env) :
    (∀ c, env.which "chef-client" = Option.some c → _get_chef_client env = Option.some c) ∧
    (env.which "chef-client" = Option.none →
      _get_chef_client env =
        if env.isfile "/opt/chef/bin/chef-client" then Option.some "/opt/chef/bin/chef-client"
        else if env.isfile "/opt/opscode/bin/chef-client" then
          Option.some "/opt/opscode/bin/chef-client"
        else Option.none) := by
  constructor
  · intro c h; simp [_get_chef_client, h]
  · intro h; simp [_get_chef_client, h, chefClientFallbacks, firstExistingFile]

/-- Claim C6, witness: with the path lookup failing and only the second
fallback existing, discovery returns `/opt/opscode/bin/chef-client`. -/
theorem claim_C6_witness :
    envOnlyOpscode.which "chef-client" = Option.none ∧
    _get_chef_client envOnlyOpscode = Option.some "/opt/opscode/bin/chef-client" :=
  ⟨rfl, ((claim_C6 envOnlyOpscode).2 rfl).trans (by decide)⟩

/-- Claim C7, counterexample: the source splits the captured output on the
single space character, not on whitespace in general — for the output
"Chef:" tab "11.4.0" the code returns the whole string, while the last
whitespace-delimited token would be "11.4.0". -/
theorem claim_C7_counterexample :
    version envTabOutput = PyVal.str "Chef:\t11.4.0" ∧
    lastWhitespaceToken "Chef:\t11.4.0" = "11.4.0" ∧
    version envTabOutput ≠ PyVal.str (lastWhitespaceToken "Chef:\t11.4.0") := by decide

/-- Claim C7 (amended): when the executable is absent, `version()` returns
the literal string "Unable to locate chef-client executable."; when execution
with the -v flag succeeds it returns the last element of the output split on
the single space character (which is the last whitespace-delimited token only
when the output contains no other whitespace); when execution raises it
returns the Boolean false. -/
theorem claim_C7 (env : Env) :
    (_get_chef_client env = Option.none →
        version env = PyVal.str "Unable to locate chef-client executable.") ∧
    (∀ cmd out, _get_chef_client env = Option.some cmd →
        env.cmdRun (cmd ++ " -v") = Except.ok out →
        version env = PyVal.str ((pySplitChar ' ' out).getLastD "")) ∧
    (∀ cmd msg, _get_chef_client env = Option.some cmd →
        env.cmdRun (cmd ++ " -v") = Except.error msg →
        version env = PyVal.bool false) := by
  refine ⟨fun h => ?_, fun cmd out h1 h2 => ?_, fun cmd msg h1 h2 => ?_⟩
  · simp [version, h]
  · simp [version, h1, h2]
  · simp [version, h1, h2]

/-- Claim C7, witness: the three branches at concrete contexts; on the space
output "Chef: 11.4.0" the returned token is "11.4.0" as the spec's example
says. -/
theorem claim_C7_witness :
    (pySplitChar ' ' "Chef: 11.4.0").getLastD "" = "11.4.0" ∧
    version envLocated = PyVal.str ((pySplitChar ' ' "Chef: 11.4.0").getLastD "") ∧
    version envNoExecutable = PyVal.str "Unable to locate chef-client executable." ∧
    version envCmdFails = PyVal.bool false := by
  refine ⟨by decide, ?_, ?_, ?_⟩
  · exact (claim_C7 envLocated).2.1 "/usr/bin/chef-client" "Chef: 11.4.0" (by decide) rfl
  · exact (claim_C7 envNoExecutable).1 (by decide)
  · exact (claim_C7 envCmdFails).2.2 "/usr/bin/chef-client" "boom" (by decide) rfl

/-- Claim C8: the why-run flag is appended whenever a `dry_run` value was
supplied, the check being non-absence (`is not None`) rather than truthiness;
and under the conditions that reach execution, the executed command line is
exactly the accumulated flag string. -/
theorem claim_C8 (env : Env) (c : String) (f : PyVal)
    (kf vk sv ev lv nn : Option String) (dr : PyVal)
    (hdr : pyIsNone dr = false)
    (h1 : _get_chef_client env = Option.some c) :
    buildFlags env ⟨f, PyVal.none, kf, vk, sv, ev, lv, nn, dr⟩ c
        = buildFlags env ⟨f, PyVal.none, kf, vk, sv, ev, lv, nn, PyVal.none⟩ c
            ++ " --why-run" ∧
    (run env ⟨PyVal.bool true, PyVal.none, kf, vk, sv, ev, lv, nn, dr⟩).2.executed
        = [buildFlags env ⟨PyVal.bool true, PyVal.none, kf, vk, sv, ev, lv, nn, dr⟩ c] := by
  constructor
  · have hn : pyIsNone PyVal.none = true := rfl
    simp [buildFlags, hdr, hn]
  · cases h4 : env.cmdRun
        (buildFlags env ⟨PyVal.bool true, PyVal.none, kf, vk, sv, ev, lv, nn, dr⟩ c) <;>
      simp [run, h1, skipCheck, pyIsFalse, h4]

/-- Claim C8, witness: `dry_run=False` — a supplied but falsy value — still
appends the why-run flag to the command. -/
theorem claim_C8_witness :
    pyIsNone (PyVal.bool false) = false ∧
    buildFlags envLocated
      ⟨PyVal.bool true, PyVal.none, Option.none, Option.none, Option.none,
       Option.none, Option.none, Option.none, PyVal.bool false⟩ "/usr/bin/chef-client"
      = "/usr/bin/chef-client --why-run" := by
  refine ⟨rfl, ?_⟩
  have h := (claim_C8 envLocated "/usr/bin/chef-client" (PyVal.bool true) Option.none
    Option.none Option.none Option.none Option.none Option.none (PyVal.bool false)
    rfl (by decide)).1
  rw [h]; decide

/-- Claim C9: the skip-file check runs only when `force` is identically the
Boolean `False` (`force is False`); with any other falsy value such as the
integer 0 or `None`, `run` behaves exactly as if forced. -/
theorem claim_C9 (env : Env) (f rl : PyVal)
    (kf vk sv ev lv nn : Option String) (dr : PyVal)
    (h : f = PyVal.int 0 ∨ f = PyVal.none) :
    run env ⟨f, rl, kf, vk, sv, ev, lv, nn, dr⟩
      = run env ⟨PyVal.bool true, rl, kf, vk, sv, ev, lv, nn, dr⟩ := by
  have hf : pyIsFalse f = false := by rcases h with h | h <;> subst h <;> rfl
  have hbt : pyIsFalse (PyVal.bool true) = false := rfl
  cases h1 : _get_chef_client env <;> simp [run, h1, skipCheck, hf, hbt, buildFlags]

/-- Claim C9, witness: in a context where the skip-file exists, `force=0`
still runs the command — identical to a forced run — instead of aborting. -/
theorem claim_C9_witness :
    envSkipfilePresent.isfile "/etc/chef/no_chef_run" = true ∧
    run envSkipfilePresent
      ⟨PyVal.int 0, PyVal.none, Option.none, Option.none, Option.none,
       Option.none, Option.none, Option.none, PyVal.none⟩
      = run envSkipfilePresent
          ⟨PyVal.bool true, PyVal.none, Option.none, Option.none, Option.none,
           Option.none, Option.none, Option.none, PyVal.none⟩ :=
  ⟨rfl, claim_C9 envSkipfilePresent (PyVal.int 0) PyVal.none Option.none Option.none
    Option.none Option.none Option.none Option.none PyVal.none (Or.inl rfl)⟩

/-- Claim C10: when `run_list` is supplied but is not a list (here: a string),
`run` behaves exactly as if no `run_list` had been supplied — the
`isinstance(run_list, list)` guard silently ignores it, so no temporary file
is created and no json-attributes flag is appended. -/
theorem claim_C10 (env : Env) (s : String) (f : PyVal)
    (kf vk sv ev lv nn : Option String) (dr : PyVal) :
    run env ⟨f, PyVal.str s, kf, vk, sv, ev, lv, nn, dr⟩
      = run env ⟨f, PyVal.none, kf, vk, sv, ev, lv, nn, dr⟩ ∧
    (run env ⟨f, PyVal.str s, kf, vk, sv, ev, lv, nn, dr⟩).2.tmpCreated = 0 := by
  refine ⟨?_, run_never_creates_tmpfile env _⟩
  cases h1 : _get_chef_client env <;> simp [run, h1]
  cases h2 : skipCheck env f <;> simp [h2, buildFlags]

end Chefapi
